import Mathlib

/-!
Verification of the baostock MCP tool layer (`mcp_baostock.py`).

Python strings are embedded as `List Char` (`Str`), Python exceptions as the
`Except` monad carrying the exception's textual message (`Py`), and the
baostock SDK's query responses as a materialized `ResultSet` (status code,
message, field-name list and the drained rows, each row an ordered list of
raw string cells).  Each tool operation is a total Lean function from the
vendor responses (supplied as parameters, since the SDK is an external
collaborator) to the operation's result, with the operation-boundary
`try/except` modelled explicitly (`pyTry`).
-/

/-- Python `str`, embedded as a list of characters. -/
abbrev Str := List Char

/-- `bs_code_to_internal` (toInternal): `sh.` ↦ `SSE:`, `sz.` ↦ `SZSE:`,
anything else passes through unchanged.  `bs_code[3:]` is `List.drop 3`. -/
def bs_code_to_internal (bs_code : Str) : Str :=
  if ("sh.".toList).isPrefixOf bs_code then "SSE:".toList ++ bs_code.drop 3
  else if ("sz.".toList).isPrefixOf bs_code then "SZSE:".toList ++ bs_code.drop 3
  else bs_code

/-- `internal_to_bs_code` (toVendor): split on the first colon
(`ticker.split(":", 1)`); `SSE` ↦ `sh.`, `SZSE` ↦ `sz.`, otherwise the
ticker passes through unchanged. -/
def internal_to_bs_code (ticker : Str) : Str :=
  if ticker.contains ':' then
    let exchange := ticker.takeWhile (fun ch => ch != ':')
    let symbol := (ticker.dropWhile (fun ch => ch != ':')).tail
    if exchange = "SSE".toList then "sh.".toList ++ symbol
    else if exchange = "SZSE".toList then "sz.".toList ++ symbol
    else ticker
  else ticker

lemma isPrefixOf_append_self (p r : Str) : p.isPrefixOf (p ++ r) = true := by
  induction p with
  | nil => simp [List.isPrefixOf]
  | cons a as ih => simp [List.isPrefixOf, ih]

lemma append_of_isPrefixOf {p s : Str} (h : p.isPrefixOf s = true) :
    s = p ++ s.drop p.length := by
  induction p generalizing s with
  | nil => simp
  | cons a as ih =>
    cases s with
    | nil => simp [List.isPrefixOf] at h
    | cons b bs =>
      simp only [List.isPrefixOf, Bool.and_eq_true, beq_iff_eq] at h
      obtain ⟨hab, hrest⟩ := h
      subst hab
      simpa using ih hrest

lemma toInternal_sh (r : Str) : bs_code_to_internal ("sh.".toList ++ r) = "SSE:".toList ++ r := by
  simp [bs_code_to_internal, isPrefixOf_append_self]

lemma toInternal_sz (r : Str) : bs_code_to_internal ("sz.".toList ++ r) = "SZSE:".toList ++ r := by
  have hsh : ("sh.".toList).isPrefixOf ("sz.".toList ++ r) = false := rfl
  simp [bs_code_to_internal, hsh, isPrefixOf_append_self]

lemma toInternal_other {c : Str} (h1 : ("sh.".toList).isPrefixOf c = false)
    (h2 : ("sz.".toList).isPrefixOf c = false) : bs_code_to_internal c = c := by
  unfold bs_code_to_internal
  rw [if_neg (by rw [h1]; exact Bool.false_ne_true),
    if_neg (by rw [h2]; exact Bool.false_ne_true)]

lemma contains_of_mem {l : Str} {ch : Char} (h : ch ∈ l) : l.contains ch = true :=
  List.elem_iff.mpr h

lemma takeWhile_before_colon (e s : Str) (h : ∀ ch ∈ e, ch ≠ ':') :
    (e ++ ':' :: s).takeWhile (fun ch => ch != ':') = e := by
  induction e with
  | nil => simp [List.takeWhile]
  | cons a as ih =>
    have ha : a ≠ ':' := h a (by simp)
    have hb : (a != ':') = true := bne_iff_ne.mpr ha
    simp only [List.cons_append, List.takeWhile, hb, List.append_eq]
    rw [ih (fun ch hc => h ch (by simp [hc]))]

lemma dropWhile_from_colon (e s : Str) (h : ∀ ch ∈ e, ch ≠ ':') :
    (e ++ ':' :: s).dropWhile (fun ch => ch != ':') = ':' :: s := by
  induction e with
  | nil => simp [List.dropWhile]
  | cons a as ih =>
    have ha : a ≠ ':' := h a (by simp)
    have hb : (a != ':') = true := bne_iff_ne.mpr ha
    simp only [List.cons_append, List.dropWhile, hb]
    exact ih (fun ch hc => h ch (by simp [hc]))

lemma toVendor_split (e s : Str) (h : ∀ ch ∈ e, ch ≠ ':') :
    internal_to_bs_code (e ++ ':' :: s) =
      if e = "SSE".toList then "sh.".toList ++ s
      else if e = "SZSE".toList then "sz.".toList ++ s
      else e ++ ':' :: s := by
  have hc : (e ++ ':' :: s).contains ':' = true := contains_of_mem (by simp)
  simp only [internal_to_bs_code, hc, if_true, takeWhile_before_colon e s h,
    dropWhile_from_colon e s h, List.tail_cons]

lemma toVendor_noColon {t : Str} (h : t.contains ':' = false) : internal_to_bs_code t = t := by
  unfold internal_to_bs_code
  rw [if_neg (by rw [h]; exact Bool.false_ne_true)]

/-- C1: `bs_code_to_internal` maps a code starting with `sh.` to `SSE:` followed by
the remainder after the prefix, a code starting with `sz.` to `SZSE:` followed by the
remainder, and leaves any other code unchanged. -/
theorem toInternal_spec (code : Str) :
    (∀ r, code = "sh.".toList ++ r → bs_code_to_internal code = "SSE:".toList ++ r) ∧
    (∀ r, code = "sz.".toList ++ r → bs_code_to_internal code = "SZSE:".toList ++ r) ∧
    (("sh.".toList).isPrefixOf code = false → ("sz.".toList).isPrefixOf code = false →
      bs_code_to_internal code = code) := by
  refine ⟨?_, ?_, ?_⟩
  · rintro r rfl; exact toInternal_sh r
  · rintro r rfl; exact toInternal_sz r
  · intro h1 h2; exact toInternal_other h1 h2

theorem toInternal_spec_instance :
    bs_code_to_internal "sh.600000".toList = "SSE:".toList ++ "600000".toList ∧
    bs_code_to_internal "sz.000001".toList = "SZSE:".toList ++ "000001".toList ∧
    bs_code_to_internal "bj.430047".toList = "bj.430047".toList :=
  ⟨(toInternal_spec "sh.600000".toList).1 "600000".toList rfl,
   (toInternal_spec "sz.000001".toList).2.1 "000001".toList rfl,
   (toInternal_spec "bj.430047".toList).2.2 rfl rfl⟩

/-- C2: `internal_to_bs_code` splits a colon-bearing ticker on the first colon into
exchange and symbol; `SSE` yields `sh.` + symbol, `SZSE` yields `sz.` + symbol, any
other exchange leaves the ticker unchanged; a ticker with no colon is unchanged. -/
theorem toVendor_spec (ticker : Str) :
    (∀ e s, (∀ ch ∈ e, ch ≠ ':') → ticker = e ++ ':' :: s →
      (e = "SSE".toList → internal_to_bs_code ticker = "sh.".toList ++ s) ∧
      (e = "SZSE".toList → internal_to_bs_code ticker = "sz.".toList ++ s) ∧
      (e ≠ "SSE".toList → e ≠ "SZSE".toList → internal_to_bs_code ticker = ticker)) ∧
    (ticker.contains ':' = false → internal_to_bs_code ticker = ticker) := by
  constructor
  · rintro e s h rfl
    rw [toVendor_split e s h]
    refine ⟨fun he => ?_, fun he => ?_, fun he1 he2 => ?_⟩
    · simp [he]
    · have hne : e ≠ "SSE".toList := by rintro rfl; simp at he
      rw [if_neg hne, if_pos he]
    · rw [if_neg he1, if_neg he2]
  · exact fun h => toVendor_noColon h

theorem toVendor_spec_instance :
    internal_to_bs_code "SSE:600000".toList = "sh.".toList ++ "600000".toList ∧
    internal_to_bs_code "SZSE:000001".toList = "sz.".toList ++ "000001".toList ∧
    internal_to_bs_code "600000".toList = "600000".toList :=
  ⟨((toVendor_spec "SSE:600000".toList).1 "SSE".toList "600000".toList
      (by decide) rfl).1 rfl,
   ((toVendor_spec "SZSE:000001".toList).1 "SZSE".toList "000001".toList
      (by decide) rfl).2.1 rfl,
   (toVendor_spec "600000".toList).2 rfl⟩

/-- C3: for a recognized vendor-form code (starting `sh.` or `sz.`),
vendor → internal → vendor → internal round-trips losslessly:
`toInternal (toVendor (toInternal c)) = toInternal c`; and both translators act as
the identity on unrecognized forms. -/
theorem roundtrip_spec (c : Str) :
    ((("sh.".toList).isPrefixOf c = true ∨ ("sz.".toList).isPrefixOf c = true) →
      bs_code_to_internal (internal_to_bs_code (bs_code_to_internal c)) =
        bs_code_to_internal c) ∧
    (("sh.".toList).isPrefixOf c = false → ("sz.".toList).isPrefixOf c = false →
      bs_code_to_internal c = c) ∧
    (c.contains ':' = false → internal_to_bs_code c = c) ∧
    (∀ e s, (∀ ch ∈ e, ch ≠ ':') → c = e ++ ':' :: s → e ≠ "SSE".toList →
      e ≠ "SZSE".toList → internal_to_bs_code c = c) := by
  refine ⟨?_, fun h1 h2 => toInternal_other h1 h2, fun h => toVendor_noColon h, ?_⟩
  · rintro (h | h)
    · have hc := append_of_isPrefixOf h
      rw [hc, toInternal_sh]
      have h2 : internal_to_bs_code ("SSE:".toList ++ c.drop ("sh.".toList).length) =
          "sh.".toList ++ c.drop ("sh.".toList).length := by
        have h3 := toVendor_split "SSE".toList (c.drop ("sh.".toList).length) (by decide)
        simpa using h3
      rw [h2, toInternal_sh]
    · have hc := append_of_isPrefixOf h
      rw [hc, toInternal_sz]
      have h2 : internal_to_bs_code ("SZSE:".toList ++ c.drop ("sz.".toList).length) =
          "sz.".toList ++ c.drop ("sz.".toList).length := by
        have h3 := toVendor_split "SZSE".toList (c.drop ("sz.".toList).length) (by decide)
        simpa using h3
      rw [h2, toInternal_sz]
  · rintro e s h rfl he1 he2
    rw [toVendor_split e s h]
    rw [if_neg he1, if_neg he2]

theorem roundtrip_spec_instance :
    bs_code_to_internal (internal_to_bs_code (bs_code_to_internal "sh.600000".toList)) =
      bs_code_to_internal "sh.600000".toList :=
  (roundtrip_spec "sh.600000".toList).1 (Or.inl rfl)

/-! ## Python exceptions, value coercion, vendor result sets -/

/-- A Python exception, represented by its textual message (`str(e)`). -/
abbrev PyErr := Str

/-- Computation that may raise a Python exception. -/
abbrev Py (α : Type) := Except PyErr α

/-- A drained cursor row: an ordered list of raw string cells. -/
abbrev Row := List Str

/-- `row[i]`: raises `IndexError` when out of range. -/
def pyIndex (row : Row) (i : Nat) : Py Str :=
  match row.get? i with
  | some v => Except.ok v
  | Option.none => Except.error "list index out of range".toList

/-- Numeric value of a digit string, most significant first. -/
def digitsVal (l : Str) : ℕ := l.foldl (fun a c => a * 10 + (c.toNat - 48)) 0

/-- Decimal-literal core of Python `float`: digits with an optional single
point, as an exact rational (` ` / exponents / inf / nan are outside the
fragment this program's cells use). -/
def parseUnsigned (s : Str) : Option ℚ :=
  let ip := s.takeWhile Char.isDigit
  let rest := s.dropWhile Char.isDigit
  match rest with
  | [] => if ip.isEmpty then Option.none else some (mkRat (digitsVal ip) 1)
  | '.' :: frac =>
    if frac.all Char.isDigit && (!ip.isEmpty || !frac.isEmpty) then
      some (mkRat (digitsVal ip * 10 ^ frac.length + digitsVal frac) (10 ^ frac.length))
    else Option.none
  | _ => Option.none

/-- Python `float(s)`: optional sign then a decimal literal; raises
`ValueError` otherwise. -/
def pyFloat (s : Str) : Py ℚ :=
  let core :=
    match s with
    | '+' :: t => parseUnsigned t
    | '-' :: t => (parseUnsigned t).map (fun q => -q)
    | t => parseUnsigned t
  match core with
  | some q => Except.ok q
  | Option.none => Except.error ("could not convert string to float: ".toList ++ s)

/-- Python `int(s)` on a string: an optionally signed run of digits; raises
`ValueError` otherwise (in particular on the empty string). -/
def pyInt (s : Str) : Py ℤ :=
  let core : Option ℤ :=
    match s with
    | '+' :: t => if !t.isEmpty && t.all Char.isDigit then some (digitsVal t) else Option.none
    | '-' :: t =>
      if !t.isEmpty && t.all Char.isDigit then some (-(digitsVal t : ℤ)) else Option.none
    | t => if !t.isEmpty && t.all Char.isDigit then some (digitsVal t) else Option.none
  match core with
  | some n => Except.ok n
  | Option.none => Except.error ("invalid literal for int() with base 10: ".toList ++ s)

/-- Python `int(q)` on a float value: truncation toward zero. -/
def pytrunc (q : ℚ) : ℤ := q.num.tdiv (q.den : ℤ)

/-- A value stored in a result record. -/
inductive PyVal where
  | none
  | str (s : Str)
  | float (q : ℚ)
  | int (n : ℤ)
  | bool (b : Bool)
  | strDict (d : List (Str × Str))
deriving DecidableEq

/-- A result record: ordered field-name/value pairs (a Python dict literal). -/
abbrev Record := List (Str × PyVal)

/-- The single-field error record `{"error": msg}`. -/
def errRecord (msg : Str) : Record := [("error".toList, PyVal.str msg)]

/-- Ordered lookup of a field in a record. -/
def lookupKey (k : Str) : Record → Option PyVal
  | [] => Option.none
  | (k2, v) :: rest => if k2 = k then some v else lookupKey k rest

/-- `float(cell) if cell else None`: Python truthiness (empty string falsy). -/
def floatOrNone (cell : Str) : Py PyVal :=
  if cell.isEmpty then Except.ok PyVal.none
  else (pyFloat cell).map PyVal.float

/-- `int(float(cell)) if cell else None`. -/
def intFloatOrNone (cell : Str) : Py PyVal :=
  if cell.isEmpty then Except.ok PyVal.none
  else (pyFloat cell).map (fun q => PyVal.int (pytrunc q))

/-- A baostock query response, with its cursor already drained: status code,
message, field-name list and collected rows. -/
structure ResultSet where
  error_code : Str
  error_msg : Str
  fields : List Str
  rows : List Row
deriving DecidableEq

/-- The `for row in data_list: result.append({...})` loop: first raised
exception aborts the whole mapping. -/
def mapRows (f : Row → Py Record) : List Row → Py (List Record)
  | [] => Except.ok []
  | r :: rest =>
    match f r with
    | Except.error e => Except.error e
    | Except.ok v =>
      match mapRows f rest with
      | Except.error e => Except.error e
      | Except.ok vs => Except.ok (v :: vs)

/-- The operation-boundary `try/except` of a list-returning tool: an exception
becomes the single-element error result `[{"error": str(e)}]`. -/
def pyTry (body : Py (List Record)) : List Record :=
  match body with
  | Except.ok r => r
  | Except.error e => [errRecord e]

/-- The operation-boundary `try/except` of a dict-returning tool. -/
def pyTryD (body : Py Record) : Record :=
  match body with
  | Except.ok r => r
  | Except.error e => errRecord e

/-- The shared call → status check → drain → emptiness check → map template of
the list-returning tools (each with its own "not found" message and row
mapping). -/
def query_tool (rs : ResultSet) (notFound : Str) (mapRow : Row → Py Record) :
    Py (List Record) :=
  if rs.error_code ≠ "0".toList then
    Except.ok [errRecord ("查询失败: ".toList ++ rs.error_msg)]
  else if rs.rows.isEmpty then Except.ok [errRecord notFound]
  else mapRows mapRow rs.rows

@[simp] lemma py_bind_ok {α β : Type} (a : α) (f : α → Py β) :
    (Except.ok a >>= f : Py β) = f a := rfl

@[simp] lemma py_bind_err {α β : Type} (e : PyErr) (f : α → Py β) :
    ((Except.error e : Py α) >>= f : Py β) = Except.error e := rfl

@[simp] lemma py_pure_eq {α : Type} (a : α) : (pure a : Py α) = Except.ok a := rfl

@[simp] lemma py_map_ok {α β : Type} (a : α) (f : α → β) :
    (Except.ok a : Py α).map f = Except.ok (f a) := rfl

@[simp] lemma py_map_err {α β : Type} (e : PyErr) (f : α → β) :
    ((Except.error e : Py α)).map f = (Except.error e : Py β) := rfl

/-! ## Row mappings and tool operations

Each operation is parameterized by the outcome of its vendor call(s)
(`query : Py ResultSet` — the call itself may raise); parameters that only
feed the vendor call (codes, dates) are absorbed into that outcome, while
parameters that appear in the output are kept explicit. -/

/-- `get_stock_basic` row mapping. -/
def stock_basic_row (row : Row) : Py Record := do
  let c0 ← pyIndex row 0
  let c1 ← pyIndex row 1
  let c2 ← pyIndex row 2
  let c3 ← pyIndex row 3
  let c4 ← pyIndex row 4
  let c5 ← pyIndex row 5
  pure [("code".toList, PyVal.str c0), ("name".toList, PyVal.str c1),
    ("ipo_date".toList, PyVal.str c2), ("out_date".toList, PyVal.str c3),
    ("type".toList, PyVal.str c4), ("status".toList, PyVal.str c5),
    ("internal_ticker".toList, PyVal.str (bs_code_to_internal c0))]

def get_stock_basic_body (query : Py ResultSet) : Py (List Record) := do
  let rs ← query
  query_tool rs "未找到股票信息".toList stock_basic_row

def get_stock_basic (query : Py ResultSet) : List Record :=
  pyTry (get_stock_basic_body query)

/-- `get_daily_price` row mapping (shared verbatim by
`get_all_stocks_daily_price`'s inner loop). -/
def daily_price_row (row : Row) : Py Record := do
  let c0 ← pyIndex row 0
  let c1 ← pyIndex row 1
  let c2 ← pyIndex row 2
  let vOpen ← floatOrNone c2
  let c3 ← pyIndex row 3
  let vHigh ← floatOrNone c3
  let c4 ← pyIndex row 4
  let vLow ← floatOrNone c4
  let c5 ← pyIndex row 5
  let vClose ← floatOrNone c5
  let c6 ← pyIndex row 6
  let vVolume ← intFloatOrNone c6
  let c7 ← pyIndex row 7
  let vAmount ← floatOrNone c7
  let c8 ← pyIndex row 8
  let vTurn ← floatOrNone c8
  pure [("date".toList, PyVal.str c0), ("code".toList, PyVal.str c1),
    ("open".toList, vOpen), ("high".toList, vHigh), ("low".toList, vLow),
    ("close".toList, vClose), ("volume".toList, vVolume),
    ("amount".toList, vAmount), ("turnover".toList, vTurn),
    ("internal_ticker".toList, PyVal.str (bs_code_to_internal c1))]

def get_daily_price_body (query : Py ResultSet) : Py (List Record) := do
  let rs ← query
  query_tool rs "未找到价格数据".toList daily_price_row

def get_daily_price (query : Py ResultSet) : List Record :=
  pyTry (get_daily_price_body query)

/-- `get_real_time_price` mapping of the latest (last) row. -/
def real_time_row (row : Row) : Py Record := do
  let c0 ← pyIndex row 0
  let c1 ← pyIndex row 1
  let c5p ← pyIndex row 5
  let vPrice ← floatOrNone c5p
  let c2 ← pyIndex row 2
  let vOpen ← floatOrNone c2
  let c3 ← pyIndex row 3
  let vHigh ← floatOrNone c3
  let c4 ← pyIndex row 4
  let vLow ← floatOrNone c4
  let c5 ← pyIndex row 5
  let vClose ← floatOrNone c5
  let c6 ← pyIndex row 6
  let vVolume ← intFloatOrNone c6
  let c7 ← pyIndex row 7
  let vAmount ← floatOrNone c7
  let c8 ← pyIndex row 8
  let vTurn ← floatOrNone c8
  pure [("date".toList, PyVal.str c0), ("code".toList, PyVal.str c1),
    ("price".toList, vPrice), ("open".toList, vOpen), ("high".toList, vHigh),
    ("low".toList, vLow), ("close".toList, vClose), ("volume".toList, vVolume),
    ("amount".toList, vAmount), ("turnover".toList, vTurn),
    ("internal_ticker".toList, PyVal.str (bs_code_to_internal c1))]

def get_real_time_price_body (query : Py ResultSet) : Py Record := do
  let rs ← query
  if rs.error_code ≠ "0".toList then
    pure (errRecord ("查询失败: ".toList ++ rs.error_msg))
  else
    match rs.rows.getLast? with
    | Option.none => pure (errRecord "未找到价格数据".toList)
    | some row => real_time_row row

def get_real_time_price (query : Py ResultSet) : Record :=
  pyTryD (get_real_time_price_body query)

/-- `get_trade_dates` row mapping: note `int(row[1]) == 1` has no emptiness
guard, unlike the numeric price fields. -/
def trade_dates_row (row : Row) : Py Record := do
  let c0 ← pyIndex row 0
  let c1 ← pyIndex row 1
  let i ← pyInt c1
  pure [("calendar_date".toList, PyVal.str c0),
    ("is_trading_day".toList, PyVal.bool (i == 1))]

def get_trade_dates_body (query : Py ResultSet) : Py (List Record) := do
  let rs ← query
  query_tool rs "未找到交易日期数据".toList trade_dates_row

def get_trade_dates (query : Py ResultSet) : List Record :=
  pyTry (get_trade_dates_body query)

/-- `get_dividend_data` row mapping. -/
def dividend_row (row : Row) : Py Record := do
  let c0 ← pyIndex row 0
  let c1 ← pyIndex row 1
  let v1 ← floatOrNone c1
  let c2 ← pyIndex row 2
  let v2 ← floatOrNone c2
  let c3 ← pyIndex row 3
  let c4 ← pyIndex row 4
  let c5 ← pyIndex row 5
  let c6 ← pyIndex row 6
  pure [("code".toList, PyVal.str c0), ("divid_pre_tax".toList, v1),
    ("divid_after_tax".toList, v2), ("record_date".toList, PyVal.str c3),
    ("ex_dividend_date".toList, PyVal.str c4), ("dividend_date".toList, PyVal.str c5),
    ("dividend_year".toList, PyVal.str c6),
    ("internal_ticker".toList, PyVal.str (bs_code_to_internal c0))]

def get_dividend_data_body (query : Py ResultSet) : Py (List Record) := do
  let rs ← query
  query_tool rs "未找到分红数据".toList dividend_row

def get_dividend_data (query : Py ResultSet) : List Record :=
  pyTry (get_dividend_data_body query)

/-- `get_stock_industry` row mapping. -/
def industry_row (row : Row) : Py Record := do
  let c0 ← pyIndex row 0
  let c1 ← pyIndex row 1
  let c2 ← pyIndex row 2
  let c3 ← pyIndex row 3
  let c4 ← pyIndex row 4
  pure [("update_date".toList, PyVal.str c0), ("code".toList, PyVal.str c1),
    ("code_name".toList, PyVal.str c2), ("industry".toList, PyVal.str c3),
    ("industry_classification".toList, PyVal.str c4),
    ("internal_ticker".toList, PyVal.str (bs_code_to_internal c1))]

def get_stock_industry_body (query : Py ResultSet) : Py (List Record) := do
  let rs ← query
  query_tool rs "未找到行业分类数据".toList industry_row

def get_stock_industry (query : Py ResultSet) : List Record :=
  pyTry (get_stock_industry_body query)

/-- `get_index_data` row mapping. -/
def index_data_row (row : Row) : Py Record := do
  let c0 ← pyIndex row 0
  let c1 ← pyIndex row 1
  let c2 ← pyIndex row 2
  let vOpen ← floatOrNone c2
  let c3 ← pyIndex row 3
  let vHigh ← floatOrNone c3
  let c4 ← pyIndex row 4
  let vLow ← floatOrNone c4
  let c5 ← pyIndex row 5
  let vClose ← floatOrNone c5
  let c6 ← pyIndex row 6
  let vVolume ← intFloatOrNone c6
  let c7 ← pyIndex row 7
  let vAmount ← floatOrNone c7
  pure [("date".toList, PyVal.str c0), ("code".toList, PyVal.str c1),
    ("open".toList, vOpen), ("high".toList, vHigh), ("low".toList, vLow),
    ("close".toList, vClose), ("volume".toList, vVolume),
    ("amount".toList, vAmount),
    ("internal_ticker".toList, PyVal.str (bs_code_to_internal c1))]

def get_index_data_body (query : Py ResultSet) : Py (List Record) := do
  let rs ← query
  query_tool rs "未找到指数数据".toList index_data_row

def get_index_data (query : Py ResultSet) : List Record :=
  pyTry (get_index_data_body query)

/-- `get_macro_data` row mapping; `data_type` is echoed into each record. -/
def macro_data_row (data_type : Str) (row : Row) : Py Record := do
  let c0 ← pyIndex row 0
  let c1 ← pyIndex row 1
  let c2 ← pyIndex row 2
  let v2 ← floatOrNone c2
  pure [("stat_year".toList, PyVal.str c0), ("stat_quarter".toList, PyVal.str c1),
    ("data_value".toList, v2), ("data_type".toList, PyVal.str data_type)]

/-- `get_macro_data` dispatches on `data_type` to one of four vendor queries;
an unknown type yields its own error record before any query. -/
def get_macro_data_body (data_type : Str)
    (qGdp qPpi qCpi qPmi : Py ResultSet) : Py (List Record) :=
  if data_type = "gdp".toList then do
    let rs ← qGdp
    query_tool rs "未找到宏观数据".toList (macro_data_row data_type)
  else if data_type = "ppi".toList then do
    let rs ← qPpi
    query_tool rs "未找到宏观数据".toList (macro_data_row data_type)
  else if data_type = "cpi".toList then do
    let rs ← qCpi
    query_tool rs "未找到宏观数据".toList (macro_data_row data_type)
  else if data_type = "pmi".toList then do
    let rs ← qPmi
    query_tool rs "未找到宏观数据".toList (macro_data_row data_type)
  else Except.ok [errRecord ("不支持的数据类型: ".toList ++ data_type)]

def get_macro_data (data_type : Str) (qGdp qPpi qCpi qPmi : Py ResultSet) :
    List Record :=
  pyTry (get_macro_data_body data_type qGdp qPpi qCpi qPmi)

/-- `get_index_constituents` row mapping; `index_code` is echoed. -/
def constituents_row (index_code : Str) (row : Row) : Py Record := do
  let c0 ← pyIndex row 0
  let c1 ← pyIndex row 1
  let c2 ← pyIndex row 2
  let c3 ← pyIndex row 3
  let v3 ← floatOrNone c3
  pure [("update_date".toList, PyVal.str c0), ("code".toList, PyVal.str c1),
    ("code_name".toList, PyVal.str c2), ("weight".toList, v3),
    ("index_code".toList, PyVal.str index_code),
    ("internal_ticker".toList, PyVal.str (bs_code_to_internal c1))]

def get_index_constituents_body (index_code : Str)
    (qHs300 qZz500 qSz50 : Py ResultSet) : Py (List Record) :=
  if index_code = "hs300".toList then do
    let rs ← qHs300
    query_tool rs "未找到成分股数据".toList (constituents_row index_code)
  else if index_code = "zz500".toList then do
    let rs ← qZz500
    query_tool rs "未找到成分股数据".toList (constituents_row index_code)
  else if index_code = "sz50".toList then do
    let rs ← qSz50
    query_tool rs "未找到成分股数据".toList (constituents_row index_code)
  else Except.ok [errRecord ("不支持的指数: ".toList ++ index_code)]

def get_index_constituents (index_code : Str) (qHs300 qZz500 qSz50 : Py ResultSet) :
    List Record :=
  pyTry (get_index_constituents_body index_code qHs300 qZz500 qSz50)

/-- `get_adjust_factor` row mapping. -/
def adjust_factor_row (row : Row) : Py Record := do
  let c0 ← pyIndex row 0
  let c1 ← pyIndex row 1
  let c2 ← pyIndex row 2
  let v2 ← floatOrNone c2
  let c3 ← pyIndex row 3
  let v3 ← floatOrNone c3
  let c4 ← pyIndex row 4
  let v4 ← floatOrNone c4
  pure [("date".toList, PyVal.str c0), ("code".toList, PyVal.str c1),
    ("fore_adjust_factor".toList, v2), ("back_adjust_factor".toList, v3),
    ("adjust_factor".toList, v4),
    ("internal_ticker".toList, PyVal.str (bs_code_to_internal c1))]

def get_adjust_factor_body (query : Py ResultSet) : Py (List Record) := do
  let rs ← query
  query_tool rs "未找到复权因子数据".toList adjust_factor_row

def get_adjust_factor (query : Py ResultSet) : List Record :=
  pyTry (get_adjust_factor_body query)

/-- `get_performance_express_report` row mapping. -/
def express_report_row (row : Row) : Py Record := do
  let c0 ← pyIndex row 0
  let c1 ← pyIndex row 1
  let c2 ← pyIndex row 2
  let c3 ← pyIndex row 3
  let v3 ← floatOrNone c3
  let c4 ← pyIndex row 4
  let v4 ← floatOrNone c4
  let c5 ← pyIndex row 5
  let v5 ← floatOrNone c5
  let c6 ← pyIndex row 6
  let v6 ← floatOrNone c6
  pure [("code".toList, PyVal.str c0), ("ann_date".toList, PyVal.str c1),
    ("report_date".toList, PyVal.str c2), ("eps".toList, v3),
    ("roe".toList, v4), ("net_profit".toList, v5), ("revenue".toList, v6),
    ("internal_ticker".toList, PyVal.str (bs_code_to_internal c0))]

def get_performance_express_report_body (query : Py ResultSet) : Py (List Record) := do
  let rs ← query
  query_tool rs "未找到业绩快报数据".toList express_report_row

def get_performance_express_report (query : Py ResultSet) : List Record :=
  pyTry (get_performance_express_report_body query)

/-- `get_forecast_report` row mapping. -/
def forecast_report_row (row : Row) : Py Record := do
  let c0 ← pyIndex row 0
  let c1 ← pyIndex row 1
  let c2 ← pyIndex row 2
  let c3 ← pyIndex row 3
  let c4 ← pyIndex row 4
  let v4 ← floatOrNone c4
  let c5 ← pyIndex row 5
  let v5 ← floatOrNone c5
  let c6 ← pyIndex row 6
  let v6 ← floatOrNone c6
  let c7 ← pyIndex row 7
  pure [("code".toList, PyVal.str c0), ("ann_date".toList, PyVal.str c1),
    ("forecast_type".toList, PyVal.str c2), ("forecast_content".toList, PyVal.str c3),
    ("profit_min".toList, v4), ("profit_max".toList, v5),
    ("last_year_profit".toList, v6), ("forecast_date".toList, PyVal.str c7),
    ("internal_ticker".toList, PyVal.str (bs_code_to_internal c0))]

def get_forecast_report_body (query : Py ResultSet) : Py (List Record) := do
  let rs ← query
  query_tool rs "未找到业绩预告数据".toList forecast_report_row

def get_forecast_report (query : Py ResultSet) : List Record :=
  pyTry (get_forecast_report_body query)

/-! ## search_stocks, get_financial_data, get_all_stocks_daily_price -/

/-- `pd.DataFrame(data_list, columns=rs.fields)`: pandas raises when a row's
width differs from the column list; otherwise the data is unchanged. -/
def pdDataFrame (rows : List Row) (cols : List Str) : Py (List Row) :=
  if rows.all (fun r => r.length == cols.length) then Except.ok rows
  else Except.error "columns passed, passed data had a different number of columns".toList

/-- Case-insensitive substring containment, modelling
`Series.str.contains(keyword, case=False, na=False)` for keywords without
regex metacharacters (the cells here are plain names and codes). -/
def containsSub (needle hay : Str) : Bool :=
  (List.range (hay.length + 1)).any
    (fun i => (needle.map Char.toLower).isPrefixOf ((hay.map Char.toLower).drop i))

/-- `df[name]` column index: raises `KeyError` when the column is missing. -/
def fieldIdx (fields : List Str) (name : Str) : Py Nat :=
  match fields.findIdx? (fun f => f = name) with
  | some i => Except.ok i
  | Option.none => Except.error ("KeyError: ".toList ++ name)

def search_stocks_body (keyword : Str) (limit : Nat) (query : Py ResultSet) :
    Py (List Record) := do
  let rs ← query
  if rs.error_code ≠ "0".toList then
    pure [errRecord ("查询失败: ".toList ++ rs.error_msg)]
  else if rs.rows.isEmpty then pure [errRecord "未找到股票数据".toList]
  else do
    let rows ← pdDataFrame rs.rows rs.fields
    let iName ← fieldIdx rs.fields "code_name".toList
    let iCode ← fieldIdx rs.fields "code".toList
    let hits := rows.filter
      (fun r => containsSub keyword (r.getD iName []) || containsSub keyword (r.getD iCode []))
    let results := hits.take limit
    pure (results.map (fun r =>
      [("code".toList, PyVal.str (r.getD iCode [])),
       ("name".toList, PyVal.str (r.getD iName [])),
       ("internal_ticker".toList, PyVal.str (bs_code_to_internal (r.getD iCode [])))]))

def search_stocks (keyword : Str) (limit : Nat) (query : Py ResultSet) : List Record :=
  pyTry (search_stocks_body keyword limit query)

/-- The fields of `datetime.now()` the financial-data operation reads. -/
structure Datetime where
  year : ℤ
  month : ℤ
  day : ℤ
deriving DecidableEq

/-- Year/quarter default resolution of `get_financial_data` (source lines
279–289): if either argument is `None`, both are recomputed from the current
date; `//` and `%` are Python floor division and modulus (`Int.fdiv` /
`Int.fmod`). -/
def resolve_year_quarter (year quarter : Option ℤ) (now : Datetime) : ℤ × ℤ :=
  match year, quarter with
  | some y, some q => (y, q)
  | _, _ =>
    let y := now.year
    let q := (now.month - 1).fdiv 3 + 1
    if now.month.fmod 3 = 1 ∧ now.day < 15 then
      if q - 1 = 0 then (y - 1, 4) else (y, q - 1)
    else (y, q)

/-- `rs_to_dict` inside `get_financial_data`: vendor error or zero rows give
`None`; otherwise the first row as a field-name/cell dict
(`df.iloc[0].to_dict()`). -/
def rs_to_dict (rs : ResultSet) : Py (Option (List (Str × Str))) :=
  if rs.error_code ≠ "0".toList then Except.ok Option.none
  else
    match rs.rows with
    | [] => Except.ok Option.none
    | row :: rest => do
      let _ ← pdDataFrame (row :: rest) rs.fields
      pure (some (rs.fields.zip row))

/-- Embeds an optional sub-dict as a record value (`None` or a dict). -/
def optDict : Option (List (Str × Str)) → PyVal
  | Option.none => PyVal.none
  | some d => PyVal.strDict d

def get_financial_data_body (bs_code : Str) (year quarter : Option ℤ)
    (now : Datetime) (qProfit qOperation qGrowth qBalance qCash : Py ResultSet) :
    Py Record := do
  let yq := resolve_year_quarter year quarter now
  let profit_rs ← qProfit
  let operation_rs ← qOperation
  let growth_rs ← qGrowth
  let balance_rs ← qBalance
  let cash_rs ← qCash
  let p ← rs_to_dict profit_rs
  let o ← rs_to_dict operation_rs
  let g ← rs_to_dict growth_rs
  let b ← rs_to_dict balance_rs
  let cf ← rs_to_dict cash_rs
  pure [("year".toList, PyVal.int yq.1), ("quarter".toList, PyVal.int yq.2),
    ("code".toList, PyVal.str bs_code),
    ("internal_ticker".toList, PyVal.str (bs_code_to_internal bs_code)),
    ("profitability".toList, optDict p), ("operation".toList, optDict o),
    ("growth".toList, optDict g), ("balance".toList, optDict b),
    ("cash_flow".toList, optDict cf)]

def get_financial_data (bs_code : Str) (year quarter : Option ℤ) (now : Datetime)
    (qProfit qOperation qGrowth qBalance qCash : Py ResultSet) : Record :=
  pyTryD (get_financial_data_body bs_code year quarter now
    qProfit qOperation qGrowth qBalance qCash)

/-- Draining `row[0]` of each `query_all_stock` row into the code list. -/
def mapCells : List Row → Py (List Str)
  | [] => Except.ok []
  | row :: rest =>
    match pyIndex row 0 with
    | Except.error e => Except.error e
    | Except.ok c =>
      match mapCells rest with
      | Except.error e => Except.error e
      | Except.ok cs => Except.ok (c :: cs)

/-- One iteration of the per-symbol loop of `get_all_stocks_daily_price`,
including its inner `try/except: continue`: any failure (vendor error, zero
rows, or exception) yields `none` and the symbol is skipped. -/
def all_stocks_item (priceQuery : Str → Py ResultSet) (code : Str) : Option Record :=
  match (do
      let price_rs ← priceQuery code
      if price_rs.error_code = "0".toList then
        match price_rs.rows with
        | [] => pure Option.none
        | row :: _ => do
          let r ← daily_price_row row
          pure (some r)
      else pure Option.none : Py (Option Record)) with
  | Except.ok v => v
  | Except.error _ => Option.none

def get_all_stocks_daily_price_body (qAll : Py ResultSet)
    (priceQuery : Str → Py ResultSet) (limit : Nat) : Py (List Record) := do
  let rs ← qAll
  if rs.error_code ≠ "0".toList then
    pure [errRecord ("查询股票列表失败: ".toList ++ rs.error_msg)]
  else do
    let stock_codes ← mapCells rs.rows
    if stock_codes.isEmpty then pure [errRecord "未找到股票列表".toList]
    else do
      let result := (stock_codes.take limit).filterMap (all_stocks_item priceQuery)
      if result.isEmpty then pure [errRecord "未找到日K线数据".toList]
      else pure result

def get_all_stocks_daily_price (qAll : Py ResultSet)
    (priceQuery : Str → Py ResultSet) (limit : Nat) : List Record :=
  pyTry (get_all_stocks_daily_price_body qAll priceQuery limit)

/-! ## Claims about the operation template -/

/-- C4: every tool operation catches any exception raised by its body (vendor
call, cursor drain, field mapping) at the operation boundary and converts it
into the single-element error result whose message is the exception's textual
message; since each operation is a total function into `List Record` /
`Record`, no exception propagates to the caller.  The last conjunct records
that an exception raised by the vendor call itself reaches the boundary. -/
theorem failure_containment (e : PyErr) (q : Py ResultSet)
    (keyword data_type index_code code : Str) (limit : ℕ)
    (year quarter : Option ℤ) (now : Datetime) (pq : Str → Py ResultSet) :
    (get_stock_basic_body q = Except.error e →
      get_stock_basic q = [errRecord e]) ∧
    (get_daily_price_body q = Except.error e →
      get_daily_price q = [errRecord e]) ∧
    (get_real_time_price_body q = Except.error e →
      get_real_time_price q = errRecord e) ∧
    (search_stocks_body keyword limit q = Except.error e →
      search_stocks keyword limit q = [errRecord e]) ∧
    (get_financial_data_body code year quarter now q q q q q = Except.error e →
      get_financial_data code year quarter now q q q q q = errRecord e) ∧
    (get_trade_dates_body q = Except.error e →
      get_trade_dates q = [errRecord e]) ∧
    (get_dividend_data_body q = Except.error e →
      get_dividend_data q = [errRecord e]) ∧
    (get_stock_industry_body q = Except.error e →
      get_stock_industry q = [errRecord e]) ∧
    (get_index_data_body q = Except.error e →
      get_index_data q = [errRecord e]) ∧
    (get_macro_data_body data_type q q q q = Except.error e →
      get_macro_data data_type q q q q = [errRecord e]) ∧
    (get_index_constituents_body index_code q q q = Except.error e →
      get_index_constituents index_code q q q = [errRecord e]) ∧
    (get_adjust_factor_body q = Except.error e →
      get_adjust_factor q = [errRecord e]) ∧
    (get_performance_express_report_body q = Except.error e →
      get_performance_express_report q = [errRecord e]) ∧
    (get_forecast_report_body q = Except.error e →
      get_forecast_report q = [errRecord e]) ∧
    (get_all_stocks_daily_price_body q pq limit = Except.error e →
      get_all_stocks_daily_price q pq limit = [errRecord e]) ∧
    (q = Except.error e → get_stock_basic_body q = Except.error e) := by
  refine ⟨fun h => ?_, fun h => ?_, fun h => ?_, fun h => ?_, fun h => ?_, fun h => ?_,
    fun h => ?_, fun h => ?_, fun h => ?_, fun h => ?_, fun h => ?_, fun h => ?_,
    fun h => ?_, fun h => ?_, fun h => ?_, fun h => ?_⟩
  · simp only [get_stock_basic, h, pyTry]
  · simp only [get_daily_price, h, pyTry]
  · simp only [get_real_time_price, h, pyTryD]
  · simp only [search_stocks, h, pyTry]
  · simp only [get_financial_data, h, pyTryD]
  · simp only [get_trade_dates, h, pyTry]
  · simp only [get_dividend_data, h, pyTry]
  · simp only [get_stock_industry, h, pyTry]
  · simp only [get_index_data, h, pyTry]
  · simp only [get_macro_data, h, pyTry]
  · simp only [get_index_constituents, h, pyTry]
  · simp only [get_adjust_factor, h, pyTry]
  · simp only [get_performance_express_report, h, pyTry]
  · simp only [get_forecast_report, h, pyTry]
  · simp only [get_all_stocks_daily_price, h, pyTry]
  · simp only [get_stock_basic_body, h, py_bind_err]

theorem failure_containment_instance :
    get_stock_basic (Except.error "boom".toList) = [errRecord "boom".toList] :=
  (failure_containment "boom".toList (Except.error "boom".toList)
    [] [] [] [] 0 Option.none Option.none ⟨2024, 1, 1⟩
    (fun _ => Except.error "boom".toList)).1 rfl

lemma query_tool_empty {rs : ResultSet} (hec : rs.error_code = "0".toList)
    (hrows : rs.rows = []) (notFound : Str) (mapRow : Row → Py Record) :
    query_tool rs notFound mapRow = Except.ok [errRecord notFound] := by
  simp [query_tool, hec, hrows]

/-- C5: for every list-returning tool operation, a vendor response with
status `"0"` whose drain produces zero rows yields exactly one record whose
only field is `error`, holding that operation's fixed "not found" message
(for the bulk operation, the empty drained stock list yields its "stock list
not found" record). -/
theorem empty_drain_not_found (q : Py ResultSet) (rs : ResultSet)
    (keyword data_type index_code : Str) (limit : ℕ) (pq : Str → Py ResultSet)
    (hq : q = Except.ok rs) (hec : rs.error_code = "0".toList)
    (hrows : rs.rows = []) :
    get_stock_basic q = [errRecord "未找到股票信息".toList] ∧
    get_daily_price q = [errRecord "未找到价格数据".toList] ∧
    search_stocks keyword limit q = [errRecord "未找到股票数据".toList] ∧
    get_trade_dates q = [errRecord "未找到交易日期数据".toList] ∧
    get_dividend_data q = [errRecord "未找到分红数据".toList] ∧
    get_stock_industry q = [errRecord "未找到行业分类数据".toList] ∧
    get_index_data q = [errRecord "未找到指数数据".toList] ∧
    (data_type = "gdp".toList ∨ data_type = "ppi".toList ∨
      data_type = "cpi".toList ∨ data_type = "pmi".toList →
      get_macro_data data_type q q q q = [errRecord "未找到宏观数据".toList]) ∧
    (index_code = "hs300".toList ∨ index_code = "zz500".toList ∨
      index_code = "sz50".toList →
      get_index_constituents index_code q q q = [errRecord "未找到成分股数据".toList]) ∧
    get_adjust_factor q = [errRecord "未找到复权因子数据".toList] ∧
    get_performance_express_report q = [errRecord "未找到业绩快报数据".toList] ∧
    get_forecast_report q = [errRecord "未找到业绩预告数据".toList] ∧
    get_all_stocks_daily_price q pq limit = [errRecord "未找到股票列表".toList] := by
  subst hq
  have hqt := fun notFound mapRow => query_tool_empty hec hrows notFound mapRow
  refine ⟨?_, ?_, ?_, ?_, ?_, ?_, ?_, ?_, ?_, ?_, ?_, ?_, ?_⟩
  · simp only [get_stock_basic, get_stock_basic_body, py_bind_ok, hqt, pyTry]
  · simp only [get_daily_price, get_daily_price_body, py_bind_ok, hqt, pyTry]
  · simp [search_stocks, search_stocks_body, pyTry, hec, hrows]
  · simp only [get_trade_dates, get_trade_dates_body, py_bind_ok, hqt, pyTry]
  · simp only [get_dividend_data, get_dividend_data_body, py_bind_ok, hqt, pyTry]
  · simp only [get_stock_industry, get_stock_industry_body, py_bind_ok, hqt, pyTry]
  · simp only [get_index_data, get_index_data_body, py_bind_ok, hqt, pyTry]
  · rintro (rfl | rfl | rfl | rfl) <;>
      simp [get_macro_data, get_macro_data_body, pyTry, hqt]
  · rintro (rfl | rfl | rfl) <;>
      simp [get_index_constituents, get_index_constituents_body, pyTry, hqt]
  · simp only [get_adjust_factor, get_adjust_factor_body, py_bind_ok, hqt, pyTry]
  · simp only [get_performance_express_report, get_performance_express_report_body,
      py_bind_ok, hqt, pyTry]
  · simp only [get_forecast_report, get_forecast_report_body, py_bind_ok, hqt, pyTry]
  · simp [get_all_stocks_daily_price, get_all_stocks_daily_price_body, pyTry,
      hec, hrows, mapCells]

theorem empty_drain_not_found_instance :
    get_daily_price (Except.ok ⟨"0".toList, [], [], []⟩) =
      [errRecord "未找到价格数据".toList] :=
  (empty_drain_not_found (Except.ok ⟨"0".toList, [], [], []⟩)
    ⟨"0".toList, [], [], []⟩ [] [] [] 0 (fun _ => Except.error [])
    rfl rfl rfl).2.1

/-- C6 counterexample: on the 15th day of the first month of a quarter
(2024-01-15) — within the first 15 days — the code does **not** step back to
the previous quarter (the guard is `now.day < 15`): it resolves to
(2024, 1), not (2023, 4) as the claim requires. -/
theorem quarter_default_boundary_cex :
    ((1 : ℤ).fmod 3 = 1 ∧ ((15 : ℤ) ≤ 15)) ∧
    resolve_year_quarter Option.none Option.none ⟨2024, 1, 15⟩ = (2024, 1) ∧
    resolve_year_quarter Option.none Option.none ⟨2024, 1, 15⟩ ≠ (2023, 4) := by
  decide

/-- C6 (amended): if year or quarter is unspecified, both are resolved from
the current date: the current year and quarter `(month - 1) // 3 + 1`; and
whenever the current date is within the first **14** days (`day < 15`) of the
first month of a quarter, the resolved quarter is stepped back by one, with
the year decremented when stepping back from quarter 1 to quarter 4. -/
theorem quarter_default_resolution (year quarter : Option ℤ) (now : Datetime)
    (hyq : year = Option.none ∨ quarter = Option.none)
    (hm1 : 1 ≤ now.month) (hm2 : now.month ≤ 12) :
    ((now.month.fmod 3 = 1 ∧ now.day < 15) →
      (now.month = 1 → resolve_year_quarter year quarter now = (now.year - 1, 4)) ∧
      (now.month ≠ 1 →
        resolve_year_quarter year quarter now = (now.year, (now.month - 1).fdiv 3))) ∧
    (¬(now.month.fmod 3 = 1 ∧ now.day < 15) →
      resolve_year_quarter year quarter now = (now.year, (now.month - 1).fdiv 3 + 1)) := by
  have hdef : resolve_year_quarter year quarter now =
      (if now.month.fmod 3 = 1 ∧ now.day < 15 then
        (if (now.month - 1).fdiv 3 + 1 - 1 = 0 then (now.year - 1, 4)
         else (now.year, (now.month - 1).fdiv 3 + 1 - 1))
       else (now.year, (now.month - 1).fdiv 3 + 1)) := by
    rcases hyq with rfl | rfl
    · cases quarter <;> rfl
    · cases year <;> rfl
  rw [hdef]
  obtain ⟨Y, M, D⟩ := now
  simp only at hm1 hm2 ⊢
  constructor
  · rintro ⟨hf, hd⟩
    rw [if_pos ⟨hf, hd⟩]
    constructor
    · rintro rfl
      rw [if_pos (by decide)]
    · intro hM1
      have hM : M = 4 ∨ M = 7 ∨ M = 10 := by
        interval_cases M <;> revert hf hM1 <;> decide
      rcases hM with rfl | rfl | rfl <;>
        rw [if_neg (by decide)] <;> simp only [Prod.mk.injEq] <;>
        exact ⟨trivial, by decide⟩
  · intro hn
    rw [if_neg hn]

theorem quarter_default_resolution_instance :
    resolve_year_quarter Option.none Option.none ⟨2024, 4, 10⟩ = (2024, 1) ∧
    resolve_year_quarter Option.none Option.none ⟨2024, 1, 10⟩ = (2023, 4) ∧
    resolve_year_quarter Option.none Option.none ⟨2024, 4, 20⟩ = (2024, 2) := by
  refine ⟨?_, ?_, ?_⟩
  · have h := ((quarter_default_resolution Option.none Option.none ⟨2024, 4, 10⟩
      (Or.inl rfl) (by decide) (by decide)).1 (by decide)).2 (by decide)
    rw [h]
    decide
  · have h := ((quarter_default_resolution Option.none Option.none ⟨2024, 1, 10⟩
      (Or.inl rfl) (by decide) (by decide)).1 (by decide)).1 rfl
    rw [h]
    decide
  · have h := (quarter_default_resolution Option.none Option.none ⟨2024, 4, 20⟩
      (Or.inl rfl) (by decide) (by decide)).2 (by decide)
    rw [h]
    decide

lemma lookupKey_cons_ne {k k2 : Str} (v : PyVal) (r : Record) (h : k2 ≠ k) :
    lookupKey k ((k2, v) :: r) = lookupKey k r := by
  simp [lookupKey, h]

/-- C7: in `get_financial_data`, each sub-query that reports a vendor error or
returns zero rows yields an absent (`None`) sub-object (`rs_to_dict`), the
other sub-objects are the normally populated dicts, and no `error` field is
set on the overall result; an error record arises only from the operation
boundary (the body raising), per the containment theorem. -/
theorem financial_partial_failure (code : Str) (year quarter : Option ℤ)
    (now : Datetime) (rs1 rs2 rs3 rs4 rs5 : ResultSet)
    (v1 v2 v3 v4 v5 : Option (List (Str × Str)))
    (h1 : rs_to_dict rs1 = Except.ok v1) (h2 : rs_to_dict rs2 = Except.ok v2)
    (h3 : rs_to_dict rs3 = Except.ok v3) (h4 : rs_to_dict rs4 = Except.ok v4)
    (h5 : rs_to_dict rs5 = Except.ok v5) :
    get_financial_data code year quarter now (Except.ok rs1) (Except.ok rs2)
        (Except.ok rs3) (Except.ok rs4) (Except.ok rs5) =
      [("year".toList, PyVal.int (resolve_year_quarter year quarter now).1),
       ("quarter".toList, PyVal.int (resolve_year_quarter year quarter now).2),
       ("code".toList, PyVal.str code),
       ("internal_ticker".toList, PyVal.str (bs_code_to_internal code)),
       ("profitability".toList, optDict v1), ("operation".toList, optDict v2),
       ("growth".toList, optDict v3), ("balance".toList, optDict v4),
       ("cash_flow".toList, optDict v5)] ∧
    lookupKey "error".toList
      (get_financial_data code year quarter now (Except.ok rs1) (Except.ok rs2)
        (Except.ok rs3) (Except.ok rs4) (Except.ok rs5)) = Option.none ∧
    (∀ rs : ResultSet, rs.error_code ≠ "0".toList →
      rs_to_dict rs = Except.ok Option.none) ∧
    (∀ rs : ResultSet, rs.rows = [] → rs_to_dict rs = Except.ok Option.none) := by
  have hmain : get_financial_data code year quarter now (Except.ok rs1) (Except.ok rs2)
      (Except.ok rs3) (Except.ok rs4) (Except.ok rs5) =
      [("year".toList, PyVal.int (resolve_year_quarter year quarter now).1),
       ("quarter".toList, PyVal.int (resolve_year_quarter year quarter now).2),
       ("code".toList, PyVal.str code),
       ("internal_ticker".toList, PyVal.str (bs_code_to_internal code)),
       ("profitability".toList, optDict v1), ("operation".toList, optDict v2),
       ("growth".toList, optDict v3), ("balance".toList, optDict v4),
       ("cash_flow".toList, optDict v5)] := by
    simp only [get_financial_data, get_financial_data_body, py_bind_ok,
      h1, h2, h3, h4, h5, py_pure_eq, pyTryD]
  refine ⟨hmain, ?_, ?_, ?_⟩
  · rw [hmain, lookupKey_cons_ne _ _ (by decide), lookupKey_cons_ne _ _ (by decide),
      lookupKey_cons_ne _ _ (by decide), lookupKey_cons_ne _ _ (by decide),
      lookupKey_cons_ne _ _ (by decide), lookupKey_cons_ne _ _ (by decide),
      lookupKey_cons_ne _ _ (by decide), lookupKey_cons_ne _ _ (by decide),
      lookupKey_cons_ne _ _ (by decide)]
    rfl
  · intro rs h
    unfold rs_to_dict
    rw [if_pos h]
  · intro rs h
    unfold rs_to_dict
    rw [h]
    by_cases he : rs.error_code ≠ "0".toList
    · rw [if_pos he]
    · rw [if_neg he]

theorem financial_partial_failure_instance :
    get_financial_data "sh.600000".toList Option.none Option.none ⟨2024, 5, 20⟩
        (Except.ok ⟨"1".toList, "net error".toList, [], []⟩)
        (Except.ok ⟨"0".toList, [], ["f".toList], [["x".toList]]⟩)
        (Except.ok ⟨"0".toList, [], ["f".toList], [["x".toList]]⟩)
        (Except.ok ⟨"0".toList, [], ["f".toList], [["x".toList]]⟩)
        (Except.ok ⟨"0".toList, [], ["f".toList], [["x".toList]]⟩) =
      [("year".toList, PyVal.int 2024), ("quarter".toList, PyVal.int 2),
       ("code".toList, PyVal.str "sh.600000".toList),
       ("internal_ticker".toList, PyVal.str "SSE:600000".toList),
       ("profitability".toList, PyVal.none),
       ("operation".toList, PyVal.strDict [("f".toList, "x".toList)]),
       ("growth".toList, PyVal.strDict [("f".toList, "x".toList)]),
       ("balance".toList, PyVal.strDict [("f".toList, "x".toList)]),
       ("cash_flow".toList, PyVal.strDict [("f".toList, "x".toList)])] := by
  rw [(financial_partial_failure "sh.600000".toList Option.none Option.none
    ⟨2024, 5, 20⟩ ⟨"1".toList, "net error".toList, [], []⟩
    ⟨"0".toList, [], ["f".toList], [["x".toList]]⟩
    ⟨"0".toList, [], ["f".toList], [["x".toList]]⟩
    ⟨"0".toList, [], ["f".toList], [["x".toList]]⟩
    ⟨"0".toList, [], ["f".toList], [["x".toList]]⟩
    Option.none (some [("f".toList, "x".toList)]) (some [("f".toList, "x".toList)])
    (some [("f".toList, "x".toList)]) (some [("f".toList, "x".toList)])
    rfl rfl rfl rfl rfl).1]
  decide

lemma daily_price_row_ok_no_error {row : Row} {r : Record}
    (h : daily_price_row row = Except.ok r) :
    lookupKey "error".toList r = Option.none := by
  unfold daily_price_row at h
  cases h0 : pyIndex row 0 <;> simp only [h0, py_bind_err, py_bind_ok] at h
  case error => exact Except.noConfusion h
  case ok c0 =>
  cases h1 : pyIndex row 1 <;> simp only [h1, py_bind_err, py_bind_ok] at h
  case error => exact Except.noConfusion h
  case ok c1 =>
  cases h2 : pyIndex row 2 <;> simp only [h2, py_bind_err, py_bind_ok] at h
  case error => exact Except.noConfusion h
  case ok c2 =>
  cases h2f : floatOrNone c2 <;> simp only [h2f, py_bind_err, py_bind_ok] at h
  case error => exact Except.noConfusion h
  case ok vOpen =>
  cases h3 : pyIndex row 3 <;> simp only [h3, py_bind_err, py_bind_ok] at h
  case error => exact Except.noConfusion h
  case ok c3 =>
  cases h3f : floatOrNone c3 <;> simp only [h3f, py_bind_err, py_bind_ok] at h
  case error => exact Except.noConfusion h
  case ok vHigh =>
  cases h4 : pyIndex row 4 <;> simp only [h4, py_bind_err, py_bind_ok] at h
  case error => exact Except.noConfusion h
  case ok c4 =>
  cases h4f : floatOrNone c4 <;> simp only [h4f, py_bind_err, py_bind_ok] at h
  case error => exact Except.noConfusion h
  case ok vLow =>
  cases h5 : pyIndex row 5 <;> simp only [h5, py_bind_err, py_bind_ok] at h
  case error => exact Except.noConfusion h
  case ok c5 =>
  cases h5f : floatOrNone c5 <;> simp only [h5f, py_bind_err, py_bind_ok] at h
  case error => exact Except.noConfusion h
  case ok vClose =>
  cases h6 : pyIndex row 6 <;> simp only [h6, py_bind_err, py_bind_ok] at h
  case error => exact Except.noConfusion h
  case ok c6 =>
  cases h6f : intFloatOrNone c6 <;> simp only [h6f, py_bind_err, py_bind_ok] at h
  case error => exact Except.noConfusion h
  case ok vVolume =>
  cases h7 : pyIndex row 7 <;> simp only [h7, py_bind_err, py_bind_ok] at h
  case error => exact Except.noConfusion h
  case ok c7 =>
  cases h7f : floatOrNone c7 <;> simp only [h7f, py_bind_err, py_bind_ok] at h
  case error => exact Except.noConfusion h
  case ok vAmount =>
  cases h8 : pyIndex row 8 <;> simp only [h8, py_bind_err, py_bind_ok] at h
  case error => exact Except.noConfusion h
  case ok c8 =>
  cases h8f : floatOrNone c8 <;> simp only [h8f, py_bind_err, py_bind_ok] at h
  case error => exact Except.noConfusion h
  case ok vTurn =>
  rw [py_pure_eq] at h
  injection h with h9
  subst h9
  rw [lookupKey_cons_ne _ _ (by decide), lookupKey_cons_ne _ _ (by decide),
    lookupKey_cons_ne _ _ (by decide), lookupKey_cons_ne _ _ (by decide),
    lookupKey_cons_ne _ _ (by decide), lookupKey_cons_ne _ _ (by decide),
    lookupKey_cons_ne _ _ (by decide), lookupKey_cons_ne _ _ (by decide),
    lookupKey_cons_ne _ _ (by decide), lookupKey_cons_ne _ _ (by decide)]
  rfl

lemma all_stocks_item_some {pq : Str → Py ResultSet} {code : Str} {r : Record}
    (h : all_stocks_item pq code = some r) :
    ∃ row, daily_price_row row = Except.ok r := by
  unfold all_stocks_item at h
  cases hq : pq code <;> simp only [hq, py_bind_err, py_bind_ok] at h
  case error => simp at h
  case ok rsc =>
  by_cases he : rsc.error_code = "0".toList
  · rw [if_pos he] at h
    cases hrows : rsc.rows with
    | nil =>
      rw [hrows] at h
      simp at h
    | cons row rest =>
      rw [hrows] at h
      cases hd : daily_price_row row with
      | error e =>
        simp only [hd, py_bind_err] at h
        simp at h
      | ok r2 =>
        simp only [hd, py_bind_ok, py_pure_eq] at h
        refine ⟨row, ?_⟩
        rw [hd]
        simp at h
        rw [h]
  · rw [if_neg he] at h
    simp at h

lemma all_stocks_item_err {pq : Str → Py ResultSet} {code : Str} {e : PyErr}
    (h : pq code = Except.error e) : all_stocks_item pq code = Option.none := by
  unfold all_stocks_item
  rw [h]
  rfl

lemma all_stocks_item_vendor_fail {pq : Str → Py ResultSet} {code : Str}
    {rsc : ResultSet} (h : pq code = Except.ok rsc)
    (he : rsc.error_code ≠ "0".toList) : all_stocks_item pq code = Option.none := by
  unfold all_stocks_item
  rw [h, py_bind_ok, if_neg he]
  rfl

lemma all_stocks_item_empty_rows {pq : Str → Py ResultSet} {code : Str}
    {rsc : ResultSet} (h : pq code = Except.ok rsc)
    (he : rsc.error_code = "0".toList) (hr : rsc.rows = []) :
    all_stocks_item pq code = Option.none := by
  unfold all_stocks_item
  rw [h, py_bind_ok, if_pos he, hr]
  rfl

lemma all_stocks_item_map_fail {pq : Str → Py ResultSet} {code : Str}
    {rsc : ResultSet} {row : Row} {rest : List Row} {e : PyErr}
    (h : pq code = Except.ok rsc) (he : rsc.error_code = "0".toList)
    (hr : rsc.rows = row :: rest) (hd : daily_price_row row = Except.error e) :
    all_stocks_item pq code = Option.none := by
  unfold all_stocks_item
  rw [h, py_bind_ok, if_pos he, hr]
  simp only [hd, py_bind_err]

lemma all_stocks_item_success {pq : Str → Py ResultSet} {code : Str}
    {rsc : ResultSet} {row : Row} {rest : List Row} {r : Record}
    (h : pq code = Except.ok rsc) (he : rsc.error_code = "0".toList)
    (hr : rsc.rows = row :: rest) (hd : daily_price_row row = Except.ok r) :
    all_stocks_item pq code = some r := by
  unfold all_stocks_item
  rw [h, py_bind_ok, if_pos he, hr]
  simp only [hd, py_bind_ok, py_pure_eq]

lemma bulk_body_eval {rs : ResultSet} {codes : List Str}
    (pq : Str → Py ResultSet) (limit : ℕ) (hec : rs.error_code = "0".toList)
    (hcodes : mapCells rs.rows = Except.ok codes) (hne2 : codes.isEmpty = false) :
    get_all_stocks_daily_price_body (Except.ok rs) pq limit =
      (if ((codes.take limit).filterMap (all_stocks_item pq)).isEmpty
       then Except.ok [errRecord "未找到日K线数据".toList]
       else Except.ok ((codes.take limit).filterMap (all_stocks_item pq))) := by
  unfold get_all_stocks_daily_price_body
  rw [py_bind_ok, if_neg (fun hh => hh hec), hcodes, py_bind_ok, hne2,
    if_neg Bool.false_ne_true]
  simp only [py_pure_eq]

/-- C8: in `get_all_stocks_daily_price`, each symbol of the drained list
(truncated to `limit`) contributes via `all_stocks_item`: any per-symbol
failure — the query raising, a vendor error status, or zero rows, or the
mapping raising — yields `none` and the symbol is silently omitted, while the
other symbols' records (which carry no `error` field) are returned; an empty
drained list or a failure of every symbol yields the single-element domain
"not found" error record. -/
theorem bulk_price_isolation (qAll : Py ResultSet) (pq : Str → Py ResultSet)
    (limit : ℕ) (rs : ResultSet) (codes : List Str)
    (hq : qAll = Except.ok rs) (hec : rs.error_code = "0".toList)
    (hcodes : mapCells rs.rows = Except.ok codes) :
    (codes = [] →
      get_all_stocks_daily_price qAll pq limit = [errRecord "未找到股票列表".toList]) ∧
    ((codes.take limit).filterMap (all_stocks_item pq) = [] → codes ≠ [] →
      get_all_stocks_daily_price qAll pq limit = [errRecord "未找到日K线数据".toList]) ∧
    ((codes.take limit).filterMap (all_stocks_item pq) ≠ [] → codes ≠ [] →
      get_all_stocks_daily_price qAll pq limit =
        (codes.take limit).filterMap (all_stocks_item pq) ∧
      ∀ r ∈ (codes.take limit).filterMap (all_stocks_item pq),
        lookupKey "error".toList r = Option.none) ∧
    (∀ c e, pq c = Except.error e → all_stocks_item pq c = Option.none) ∧
    (∀ c rsc, pq c = Except.ok rsc → rsc.error_code ≠ "0".toList →
      all_stocks_item pq c = Option.none) ∧
    (∀ c rsc, pq c = Except.ok rsc → rsc.error_code = "0".toList → rsc.rows = [] →
      all_stocks_item pq c = Option.none) ∧
    (∀ c rsc row rest e, pq c = Except.ok rsc → rsc.error_code = "0".toList →
      rsc.rows = row :: rest → daily_price_row row = Except.error e →
      all_stocks_item pq c = Option.none) ∧
    (∀ c rsc row rest r, pq c = Except.ok rsc → rsc.error_code = "0".toList →
      rsc.rows = row :: rest → daily_price_row row = Except.ok r →
      all_stocks_item pq c = some r) := by
  subst hq
  refine ⟨?_, ?_, ?_, ?_, ?_, ?_, ?_, ?_⟩
  · intro h
    subst h
    simp [get_all_stocks_daily_price, get_all_stocks_daily_price_body, pyTry,
      hec, hcodes]
  · intro hfm hne
    have hne2 : codes.isEmpty = false := by
      cases codes
      · exact absurd rfl hne
      · rfl
    unfold get_all_stocks_daily_price
    rw [bulk_body_eval pq limit hec hcodes hne2, hfm]
    rfl
  · intro hfm hne
    have hne2 : codes.isEmpty = false := by
      cases codes
      · exact absurd rfl hne
      · rfl
    have hfm2 : ((codes.take limit).filterMap (all_stocks_item pq)).isEmpty = false := by
      cases hfm3 : (codes.take limit).filterMap (all_stocks_item pq)
      · exact absurd hfm3 hfm
      · rfl
    constructor
    · unfold get_all_stocks_daily_price
      rw [bulk_body_eval pq limit hec hcodes hne2, hfm2,
        if_neg Bool.false_ne_true]
      rfl
    · intro r hr
      obtain ⟨c, _, hitem⟩ := List.mem_filterMap.mp hr
      obtain ⟨row, hd⟩ := all_stocks_item_some hitem
      exact daily_price_row_ok_no_error hd
  · exact fun c e h => all_stocks_item_err h
  · exact fun c rsc h he => all_stocks_item_vendor_fail h he
  · exact fun c rsc h he hr => all_stocks_item_empty_rows h he hr
  · exact fun c rsc row rest e h he hr hd => all_stocks_item_map_fail h he hr hd
  · exact fun c rsc row rest r h he hr hd => all_stocks_item_success h he hr hd

def bulkRsAllW : ResultSet :=
  ⟨"0".toList, [], [], [["sh.600000".toList], ["sz.000001".toList]]⟩

def bulkPqW : Str → Py ResultSet := fun c =>
  if c = "sh.600000".toList then
    Except.ok ⟨"0".toList, [],
      [], [["2024-01-05".toList, "sh.600000".toList, [], [], [], [], [], [], []]]⟩
  else Except.error "connection reset".toList

theorem bulk_price_isolation_instance :
    get_all_stocks_daily_price (Except.ok bulkRsAllW) bulkPqW 100 =
      [[("date".toList, PyVal.str "2024-01-05".toList),
        ("code".toList, PyVal.str "sh.600000".toList),
        ("open".toList, PyVal.none), ("high".toList, PyVal.none),
        ("low".toList, PyVal.none), ("close".toList, PyVal.none),
        ("volume".toList, PyVal.none), ("amount".toList, PyVal.none),
        ("turnover".toList, PyVal.none),
        ("internal_ticker".toList, PyVal.str "SSE:600000".toList)]] := by
  have h := (bulk_price_isolation (Except.ok bulkRsAllW) bulkPqW 100 bulkRsAllW
    ["sh.600000".toList, "sz.000001".toList] rfl rfl rfl).2.2.1
    (by decide) (by decide)
  rw [h.1]
  decide

deriving instance DecidableEq for Except

/-- C9: in the price-row mapping, an empty-string cell maps to an absent
(`None`) value; a non-empty cell parsed by `float` maps to the price-like
fields (open/high/low/close/amount/turnover) as the parsed value and to the
count-like volume field as its truncation to an integer; in particular
`"123.0"` parses to `123` exactly and truncates to the integer `123`; and the
cells feed the fields positionally as in the source dict literal. -/
theorem numeric_coercion (s : Str) (q : ℚ) (cD cC cO cH cL cCl cV cA cT : Str)
    (vO vH vL vCl vV vA vT : PyVal)
    (hO : floatOrNone cO = Except.ok vO) (hH : floatOrNone cH = Except.ok vH)
    (hL : floatOrNone cL = Except.ok vL) (hCl : floatOrNone cCl = Except.ok vCl)
    (hV : intFloatOrNone cV = Except.ok vV) (hA : floatOrNone cA = Except.ok vA)
    (hT : floatOrNone cT = Except.ok vT) :
    (floatOrNone [] = Except.ok PyVal.none) ∧
    (intFloatOrNone [] = Except.ok PyVal.none) ∧
    (s ≠ [] → pyFloat s = Except.ok q →
      floatOrNone s = Except.ok (PyVal.float q) ∧
      intFloatOrNone s = Except.ok (PyVal.int (pytrunc q))) ∧
    (pyFloat "123.0".toList = Except.ok (123 : ℚ) ∧ pytrunc 123 = 123) ∧
    daily_price_row [cD, cC, cO, cH, cL, cCl, cV, cA, cT] = Except.ok
      [("date".toList, PyVal.str cD), ("code".toList, PyVal.str cC),
       ("open".toList, vO), ("high".toList, vH), ("low".toList, vL),
       ("close".toList, vCl), ("volume".toList, vV), ("amount".toList, vA),
       ("turnover".toList, vT),
       ("internal_ticker".toList, PyVal.str (bs_code_to_internal cC))] := by
  refine ⟨rfl, rfl, ?_, ⟨by decide, by decide⟩, ?_⟩
  · intro hs hpf
    have hne : s.isEmpty = false := by
      cases s
      · exact absurd rfl hs
      · rfl
    constructor
    · unfold floatOrNone
      rw [hne, if_neg Bool.false_ne_true, hpf]
      rfl
    · unfold intFloatOrNone
      rw [hne, if_neg Bool.false_ne_true, hpf]
      rfl
  · show (floatOrNone cO >>= fun vOpen =>
      floatOrNone cH >>= fun vHigh =>
      floatOrNone cL >>= fun vLow =>
      floatOrNone cCl >>= fun vClose =>
      intFloatOrNone cV >>= fun vVolume =>
      floatOrNone cA >>= fun vAmount =>
      floatOrNone cT >>= fun vTurn =>
      pure [("date".toList, PyVal.str cD), ("code".toList, PyVal.str cC),
        ("open".toList, vOpen), ("high".toList, vHigh), ("low".toList, vLow),
        ("close".toList, vClose), ("volume".toList, vVolume),
        ("amount".toList, vAmount), ("turnover".toList, vTurn),
        ("internal_ticker".toList, PyVal.str (bs_code_to_internal cC))]) = _
    rw [hO, py_bind_ok, hH, py_bind_ok, hL, py_bind_ok, hCl, py_bind_ok,
      hV, py_bind_ok, hA, py_bind_ok, hT, py_bind_ok]
    rfl

theorem numeric_coercion_instance :
    floatOrNone "123.0".toList = Except.ok (PyVal.float 123) ∧
    intFloatOrNone "123.0".toList = Except.ok (PyVal.int 123) := by
  have h := (numeric_coercion "123.0".toList 123 [] [] "123.0".toList
    "123.0".toList "123.0".toList "123.0".toList "123.0".toList "123.0".toList
    "123.0".toList (PyVal.float 123) (PyVal.float 123) (PyVal.float 123)
    (PyVal.float 123) (PyVal.int 123) (PyVal.float 123) (PyVal.float 123)
    (by decide) (by decide) (by decide) (by decide) (by decide) (by decide)
    (by decide)).2.2.1 (by decide) (by decide)
  refine ⟨h.1, ?_⟩
  rw [h.2]
  decide

lemma mapRows_error_of_mem {f : Row → Py Record} {l : List Row} {row : Row}
    {e : PyErr} (hmem : row ∈ l) (hrow : f row = Except.error e) :
    ∃ e2, mapRows f l = Except.error e2 := by
  induction l with
  | nil => cases hmem
  | cons a as ih =>
    cases hmem with
    | head => exact ⟨e, by simp [mapRows, hrow]⟩
    | tail _ hmem2 =>
      cases ha : f a with
      | error e2 => exact ⟨e2, by simp [mapRows, ha]⟩
      | ok v =>
        obtain ⟨e2, hrec⟩ := ih hmem2
        exact ⟨e2, by simp [mapRows, ha, hrec]⟩

lemma trade_dates_row_ok {row : Row} {d cell : Str} {i : ℤ}
    (h0 : pyIndex row 0 = Except.ok d) (h1 : pyIndex row 1 = Except.ok cell)
    (h2 : pyInt cell = Except.ok i) :
    trade_dates_row row = Except.ok
      [("calendar_date".toList, PyVal.str d),
       ("is_trading_day".toList, PyVal.bool (i == 1))] := by
  unfold trade_dates_row
  rw [h0, py_bind_ok, h1, py_bind_ok, h2, py_bind_ok]
  rfl

lemma trade_dates_row_fail {row : Row} {cell : Str} {e0 : PyErr}
    (h1 : pyIndex row 1 = Except.ok cell) (h2 : pyInt cell = Except.error e0) :
    trade_dates_row row = Except.error e0 := by
  have h0 : ∃ d, pyIndex row 0 = Except.ok d := by
    cases row with
    | nil => exact absurd h1 (by simp [pyIndex])
    | cons a rest => exact ⟨a, rfl⟩
  obtain ⟨d, h0⟩ := h0
  unfold trade_dates_row
  rw [h0, py_bind_ok, h1, py_bind_ok, h2]
  rfl

/-- C10: `get_trade_dates` computes `is_trading_day` as `int(cell) == 1` with
no empty-cell guard: a row mapping with a parseable cell yields the boolean
record, while a row anywhere in the drain whose is-trading-day cell fails
`int` (in particular the empty string, which always fails) makes the whole
operation return the single-element error record instead of any calendar
rows. -/
theorem trade_dates_no_guard (q : Py ResultSet) (rs : ResultSet) (row : Row)
    (d cell : Str) (i : ℤ) (e0 : PyErr)
    (hq : q = Except.ok rs) (hec : rs.error_code = "0".toList) :
    (pyIndex row 0 = Except.ok d → pyIndex row 1 = Except.ok cell →
      pyInt cell = Except.ok i →
      trade_dates_row row = Except.ok
        [("calendar_date".toList, PyVal.str d),
         ("is_trading_day".toList, PyVal.bool (i == 1))]) ∧
    (∃ e, pyInt [] = Except.error e) ∧
    (row ∈ rs.rows → pyIndex row 1 = Except.ok cell →
      pyInt cell = Except.error e0 →
      ∃ e, get_trade_dates q = [errRecord e]) := by
  subst hq
  refine ⟨fun h0 h1 h2 => trade_dates_row_ok h0 h1 h2, ⟨_, rfl⟩, ?_⟩
  intro hmem h1 h2
  have hrow := trade_dates_row_fail h1 h2
  obtain ⟨e2, hmap⟩ := mapRows_error_of_mem hmem hrow
  refine ⟨e2, ?_⟩
  have hne : rs.rows.isEmpty = false := by
    cases hrows : rs.rows
    · rw [hrows] at hmem
      cases hmem
    · rfl
  unfold get_trade_dates get_trade_dates_body
  rw [py_bind_ok]
  unfold query_tool
  rw [if_neg (fun hh => hh hec), hne, if_neg Bool.false_ne_true, hmap]
  rfl

theorem trade_dates_no_guard_instance :
    ∃ e, get_trade_dates (Except.ok ⟨"0".toList, [], [],
      [["2024-01-01".toList, []]]⟩) = [errRecord e] :=
  (trade_dates_no_guard
    (Except.ok ⟨"0".toList, [], [], [["2024-01-01".toList, []]]⟩)
    ⟨"0".toList, [], [], [["2024-01-01".toList, []]]⟩
    ["2024-01-01".toList, []] [] [] 0
    ("invalid literal for int() with base 10: ".toList ++ [])
    rfl rfl).2.2 (by simp) rfl rfl
